import Mathlib

/-!
Shallow embedding of the geomatch-web dashboard (src/app/page.tsx) and its
forwarding proxy (src/app/api/v1/query/route.ts).

The dashboard is a React component whose state consists of the selected
image file, a preview URL, a loading flag, the latest backend response, the
currently selected result, an error message and a view mode.  Handlers are
modelled as pure state-transition functions; the network is modelled as an
explicit outcome parameter (success / HTTP error / thrown exception), since
the code branches only on those observations.
-/

/-- One match returned by the backend (interface GeomatchResult).  Numeric
fields are opaque payload here (nothing in this repository computes with
them), so they are carried as integers. -/
structure GeomatchResult where
  id : String
  initial_rank : Int
  vector_distance : Int
  refined_rank : Int
  «matches» : Int
  latitude : Int
  longitude : Int
  elevation : Int
  date : String
deriving Repr, DecidableEq

/-- The backend response shape (interface GeomatchResponse). -/
structure GeomatchResponse where
  count : Int
  results : List GeomatchResult
deriving Repr, DecidableEq

/-- An uploaded file; only its identity matters to the dashboard logic. -/
structure File where
  name : String
deriving Repr, DecidableEq

/-- The left-pane view toggle (type ViewMode). -/
inductive ViewMode where
  | streetview
  | map
deriving Repr, DecidableEq

/-- The React state of OSINTDashboard: one useState hook per field. -/
structure DashState where
  selectedImage : Option File
  previewUrl : Option String
  isLoading : Bool
  apiResponse : Option GeomatchResponse
  selectedResult : Option GeomatchResult
  errorMsg : Option String
  viewMode : ViewMode
deriving Repr, DecidableEq

/-- JavaScript `x || fallback` on a nullable string: null and the empty
string are falsy. -/
def jsOrStr (x : Option String) (fallback : String) : String :=
  match x with
  | some s => if s.isEmpty then fallback else s
  | none => fallback

/-- JavaScript truthiness of a nullable string (empty string is falsy);
used for `!process.env.NEXT_PUBLIC_GOOGLE_MAPS_KEY`. -/
def strFalsy : Option String → Bool
  | none => true
  | some s => s.isEmpty

/-- `formatPanoId` from page.tsx: `rawId.replace(/_[0-9]$/, "")`.  The
regex matches exactly when the last two characters are an underscore
followed by a decimal digit; replacing the match with the empty string
drops those two characters.  Otherwise the string is unchanged. -/
def formatPanoId (rawId : String) : String :=
  match rawId.data.reverse with
  | d :: c :: rest => if c == '_' && d.isDigit then String.mk rest.reverse else rawId
  | _ => rawId

/-- Decides whether a string ends in an underscore followed by a digit
(the condition under which the regex `_[0-9]$` matches). -/
def endsInUnderscoreDigit (s : String) : Bool :=
  match s.data.reverse with
  | d :: c :: _ => c == '_' && d.isDigit
  | _ => false

/-- The change event handed to handleImageChange: `e.target.files` as a
list (the handler looks only at index 0). -/
structure ChangeEvent where
  files : List File

/-- `handleImageChange` from page.tsx: if the event carries a file, store
it, set the preview URL from `URL.createObjectURL`, and clear the response,
the selection and the error message; otherwise do nothing.  The object-URL
allocator is passed in as a function. -/
def handleImageChange (objectURL : File → String) (e : ChangeEvent) (s : DashState) : DashState :=
  match e.files.head? with
  | some file =>
      { s with
          selectedImage := some file,
          previewUrl := some (objectURL file),
          apiResponse := none,
          selectedResult := none,
          errorMsg := none }
  | none => s

/-- A JavaScript thrown value as observed by the catch block of
handleSubmit: either an Error (with a message) or something else. -/
inductive ThrownValue where
  | errorObj (message : String)
  | nonError
deriving Repr, DecidableEq

/-- What the fetch to `/api/v1/query` can yield, as far as handleSubmit
can observe: a parsed successful response; a non-ok response whose error
body parsed, carrying an optional `detail` field; or a thrown value
(network failure or a JSON parse failure on either path). -/
inductive SubmitOutcome where
  | respOk (data : GeomatchResponse)
  | respErr (status : Nat) (detail : Option String)
  | threw (v : ThrownValue)
deriving Repr, DecidableEq

/-- The state changes handleSubmit performs before the request is sent:
set the loading flag and clear the error message (lines 57 to 58 of
page.tsx).  Nothing else is touched. -/
def submitPrologue (s : DashState) : DashState :=
  { s with isLoading := true, errorMsg := none }

/-- The message the catch block extracts from a thrown value:
`error instanceof Error ? error.message : "Connection failed"`. -/
def thrownMessage : ThrownValue → String
  | .errorObj m => m
  | .nonError => "Connection failed"

/-- `handleSubmit` from page.tsx as a state transition, given the
network outcome.  Guards on a selected image, runs the prologue, then on
success stores the response and selects `data.results[0]` (which is
undefined, i.e. none, when the list is empty); on a non-ok response it
throws `new Error(errData.detail || "Error: " + status)` which the catch
block stores as the error message; on any thrown value it stores the
extracted message.  The finally block clears the loading flag. -/
def handleSubmit (outcome : SubmitOutcome) (s : DashState) : DashState :=
  if s.selectedImage.isNone then s
  else
    let s1 := submitPrologue s
    let s2 :=
      match outcome with
      | .respOk data =>
          { s1 with apiResponse := some data, selectedResult := data.results.head? }
      | .respErr status detail =>
          { s1 with errorMsg := some (jsOrStr detail ("Error: " ++ toString status)) }
      | .threw v =>
          { s1 with errorMsg := some (thrownMessage v) }
    { s2 with isLoading := false }

/-- The error line of the control panel (line 220 of page.tsx):
`{errorMsg && <div>...</div>}` renders exactly when errorMsg is truthy,
i.e. present and non-empty. -/
def errorDisplayed (s : DashState) : Bool :=
  match s.errorMsg with
  | some m => !m.isEmpty
  | none => false

/-- The disabled predicate of the Locate button (line 214 of page.tsx):
`disabled={isLoading || !selectedImage}`. -/
def locateDisabled (s : DashState) : Bool :=
  s.isLoading || s.selectedImage.isNone

/-- What the left pane renders, abstracted to the cases the code
distinguishes. -/
inductive LeftPaneView where
  | missingKeyError
  | streetFrame (key : String) (pano : String)
  | mapView (token : Option String) (markers : List GeomatchResult)
  | awaiting
deriving Repr, DecidableEq

/-- The left pane of OSINTDashboard (lines 136 to 195 of page.tsx).  In
streetview mode with a selected result, a falsy Google Maps key renders
the inline error div, otherwise the panorama iframe keyed by the
formatted pano id.  In streetview mode with no selection only the
awaiting overlay shows.  In map mode the Map component is rendered
unconditionally, receiving the Mapbox token as-is (possibly undefined)
and one marker per result of the stored response. -/
def leftPane (googleKey mapboxToken : Option String) (s : DashState) : LeftPaneView :=
  match s.viewMode with
  | .streetview =>
      match s.selectedResult with
      | some r =>
          if strFalsy googleKey then
            .missingKeyError
          else
            .streetFrame (googleKey.getD "") (formatPanoId r.id)
      | none => .awaiting
  | .map =>
      .mapView mapboxToken ((Option.map GeomatchResponse.results s.apiResponse).getD [])

/-- What the proxy's fetch of the backend can yield, as far as the POST
handler can observe: an ok response whose JSON parsed, a non-ok response
with its error text, or a thrown value (transport failure, or a parse
failure of the URL, form data or body). -/
inductive BackendOutcome where
  | ok (body : String)
  | notOk (status : Nat) (errorText : String)
  | threw
deriving Repr, DecidableEq

/-- A response body produced by the proxy: either the backend JSON passed
through raw, or the error object shape with a `detail` string. -/
inductive ResponseBody where
  | raw (body : String)
  | errorObj (detail : String)
deriving Repr, DecidableEq

/-- An HTTP response produced by the proxy. -/
structure ProxyResponse where
  status : Nat
  body : ResponseBody
deriving Repr, DecidableEq

/-- The top_k value the proxy forwards to the backend:
`searchParams.get('top_k') || '30'` (route.ts line 7); an absent or empty
parameter falls back to the string "30". -/
def forwardedTopK (topKParam : Option String) : String :=
  jsOrStr topKParam "30"

/-- How the POST handler turns the backend's outcome into its own
response (route.ts lines 24 to 43): a non-ok backend status yields
`{ detail: "Target Server Error: <status>" }` with the backend's status;
a successful backend response is returned as JSON with status 200; any
exception yields `{ detail: "Internal Server Proxy Error" }` with
status 500. -/
def respondWith : BackendOutcome → ProxyResponse
  | .ok body => ⟨200, .raw body⟩
  | .notOk status _errText => ⟨status, .errorObj ("Target Server Error: " ++ toString status)⟩
  | .threw => ⟨500, .errorObj "Internal Server Proxy Error"⟩

/-- The proxy's POST handler: forward the request to the backend at the
computed top_k and translate the outcome. -/
def POST (topKParam : Option String) (backend : String → BackendOutcome) : ProxyResponse :=
  respondWith (backend (forwardedTopK topKParam))

/-! Concrete sample values used by witnesses and counterexamples. -/

/-- A sample match result; its id carries a strippable `_1` suffix. -/
def sampleResult : GeomatchResult :=
  ⟨"pano_1", 1, 3, 1, 12, 48, 2, 100, "2024-05-01"⟩

/-- A sample uploaded file. -/
def sampleFile : File := ⟨"target.jpg"⟩

/-- A sample object-URL allocator. -/
def sampleUrl : File → String := fun f => "blob:" ++ f.name

/-- A dashboard state with an image selected and a result already
selected from an earlier query, idle, in streetview mode. -/
def readyState : DashState :=
  ⟨some sampleFile, some "blob:target.jpg", false, none, some sampleResult, none, .streetview⟩

/-- A dashboard state in map mode with a stored response and selection. -/
def mapState : DashState :=
  ⟨some sampleFile, some "blob:target.jpg", false, some ⟨1, [sampleResult]⟩,
    some sampleResult, none, .map⟩

/-- A dashboard state with an image selected and a request in flight. -/
def loadingState : DashState :=
  ⟨some sampleFile, some "blob:target.jpg", true, none, none, none, .streetview⟩

/-- A pristine dashboard state: nothing selected, nothing loaded. -/
def emptyState : DashState :=
  ⟨none, none, false, none, none, none, .streetview⟩

/-- A backend that always answers 404. -/
def backendErr : String → BackendOutcome := fun _ => .notOk 404 "missing"

/-! Helper lemmas. -/

/-- A string starting with a non-empty literal prefix is non-empty. -/
theorem append_isEmpty_false (a t : String) (ha : a.data ≠ []) :
    (a ++ t).isEmpty = false := by
  rw [Bool.eq_false_iff]
  intro h
  have he : a ++ t = "" := (String.isEmpty_iff _).mp h
  have hd := congrArg String.data he
  rw [String.data_append] at hd
  exact ha (List.append_eq_nil.mp hd).1

/-- `x || fallback` is non-empty whenever the fallback is. -/
theorem jsOrStr_isEmpty_false (d : Option String) (f : String) (hf : f.isEmpty = false) :
    (jsOrStr d f).isEmpty = false := by
  cases d with
  | none => exact hf
  | some s =>
    cases hse : s.isEmpty with
    | true => simp [jsOrStr, hse, hf]
    | false => simp [jsOrStr, hse]

/-- C10: handleImageChange with an empty file list changes nothing. -/
theorem handleImageChange_no_file (u : File → String) (s : DashState) :
    handleImageChange u ⟨[]⟩ s = s := rfl

/-- C6: handleImageChange with a file clears the stored response, the
selection and the error message, and sets the selected image and the
preview URL from the new file. -/
theorem handleImageChange_with_file (u : File → String) (f : File) (rest : List File)
    (s : DashState) :
    (handleImageChange u ⟨f :: rest⟩ s).apiResponse = none
    ∧ (handleImageChange u ⟨f :: rest⟩ s).selectedResult = none
    ∧ (handleImageChange u ⟨f :: rest⟩ s).errorMsg = none
    ∧ (handleImageChange u ⟨f :: rest⟩ s).selectedImage = some f
    ∧ (handleImageChange u ⟨f :: rest⟩ s).previewUrl = some (u f) :=
  ⟨rfl, rfl, rfl, rfl, rfl⟩

/-- C1 counterexample: a successful response with zero results leaves no
defined selection, refuting the claim that a defined selection exists
whenever the response is successful including at N = 0: handleSubmit sets
the selection to `data.results[0]`, which is undefined on an empty list. -/
theorem empty_results_no_selection :
    (handleSubmit (.respOk ⟨0, []⟩) readyState).selectedResult = none := rfl

/-- C1 (amended): after a successful response, the selection equals
`results[0]`: the first result when the list is non-empty, and none (no
defined selection) when the list is empty. -/
theorem handleSubmit_success_selection (data : GeomatchResponse) (s : DashState)
    (h : s.selectedImage.isNone = false) :
    (data.results = [] → (handleSubmit (.respOk data) s).selectedResult = none)
    ∧ ∀ r rest, data.results = r :: rest →
        (handleSubmit (.respOk data) s).selectedResult = some r := by
  constructor
  · intro he
    simp [handleSubmit, h, he, submitPrologue]
  · intro r rest he
    simp [handleSubmit, h, he, submitPrologue]

/-- C1 witness: on a one-result response the first result is selected. -/
theorem handleSubmit_success_selection_witness :
    (handleSubmit (.respOk ⟨1, [sampleResult]⟩) readyState).selectedResult = some sampleResult :=
  (handleSubmit_success_selection ⟨1, [sampleResult]⟩ readyState rfl).2 sampleResult [] rfl

/-- C2 counterexample: submitting a query does not clear the selection
before the request is sent — the prologue keeps it, and a full run whose
response is an error still keeps it. -/
theorem submit_does_not_clear_selection :
    (submitPrologue readyState).selectedResult = some sampleResult
    ∧ (handleSubmit (.respErr 500 none) readyState).selectedResult = some sampleResult :=
  ⟨rfl, rfl⟩

/-- C2 (amended): the selection state holds at most one result (it is an
Option-valued field of DashState); choosing a new image clears it; the
submit prologue — everything handleSubmit changes before the request is
sent — retains the selection, setting only the loading flag and clearing
only the error message. -/
theorem selection_cleared_on_image_change (u : File → String) (f : File) (rest : List File)
    (s : DashState) :
    (handleImageChange u ⟨f :: rest⟩ s).selectedResult = none
    ∧ (submitPrologue s).selectedResult = s.selectedResult
    ∧ (submitPrologue s).errorMsg = none
    ∧ (submitPrologue s).isLoading = true :=
  ⟨rfl, rfl, rfl, rfl⟩

/-- C3: when the forwarding endpoint answers with a non-success status,
handleSubmit leaves the stored response exactly as it was and ends with a
displayed (present and non-empty) error message. -/
theorem handleSubmit_respErr_preserves (status : Nat) (detail : Option String) (s : DashState)
    (h : s.selectedImage.isNone = false) :
    (handleSubmit (.respErr status detail) s).apiResponse = s.apiResponse
    ∧ errorDisplayed (handleSubmit (.respErr status detail) s) = true := by
  have hf : ("Error: " ++ toString status).isEmpty = false :=
    append_isEmpty_false _ _ (by decide)
  constructor
  · simp [handleSubmit, h, submitPrologue]
  · simp [handleSubmit, h, submitPrologue, errorDisplayed,
      jsOrStr_isEmpty_false detail _ hf]

/-- C3 witness: a 500 answer with no detail field on the ready state. -/
theorem handleSubmit_respErr_preserves_witness :
    (handleSubmit (.respErr 500 none) readyState).apiResponse = readyState.apiResponse
    ∧ errorDisplayed (handleSubmit (.respErr 500 none) readyState) = true :=
  handleSubmit_respErr_preserves 500 none readyState rfl

/-- C9 counterexample: a state with a request in flight has a selected
file and yet the Locate button is disabled, so "submit requires a
selected file" is not the only guard on the submit transition. -/
theorem locateDisabled_despite_file :
    loadingState.selectedImage = some sampleFile ∧ locateDisabled loadingState = true :=
  ⟨rfl, rfl⟩

/-- C9 (amended): with no selected image handleSubmit returns at once and
the whole dashboard state is unchanged; this is the handler's only guard,
but the submit button is additionally disabled while a request is
loading: it is enabled exactly when not loading and a file is selected. -/
theorem handleSubmit_guard (o : SubmitOutcome) (s : DashState)
    (h : s.selectedImage = none) :
    handleSubmit o s = s
    ∧ ∀ t : DashState,
        (locateDisabled t = false ↔ (t.isLoading = false ∧ t.selectedImage.isSome = true)) := by
  constructor
  · simp [handleSubmit, h]
  · intro t
    cases hl : t.isLoading <;> cases hi : t.selectedImage <;> simp [locateDisabled, hl, hi]

/-- C9 witness: submitting on the pristine state is a no-op. -/
theorem handleSubmit_guard_witness :
    handleSubmit (.threw .nonError) emptyState = emptyState :=
  (handleSubmit_guard (.threw .nonError) emptyState rfl).1

/-- The strip case of formatPanoId: appending an underscore and a digit
to any string is undone by formatPanoId. -/
theorem formatPanoId_strips (t : String) (d : Char) (hd : d.isDigit = true) :
    formatPanoId ((t.push '_').push d) = t := by
  obtain ⟨cs⟩ := t
  simp [formatPanoId, String.push, hd]

/-- The identity case of formatPanoId: a string not ending in underscore
then digit is unchanged. -/
theorem formatPanoId_unchanged (s : String) (h : endsInUnderscoreDigit s = false) :
    formatPanoId s = s := by
  unfold formatPanoId
  unfold endsInUnderscoreDigit at h
  cases hrev : s.data.reverse with
  | nil => rfl
  | cons d tl =>
    cases tl with
    | nil => rfl
    | cons c rest =>
      rw [hrev] at h
      simp only at h
      simp [h]

/-- A string on which the regex `_[0-9]$` matches decomposes as a prefix
followed by an underscore and a digit. -/
theorem endsIn_decompose (s : String) (h : endsInUnderscoreDigit s = true) :
    ∃ (t : String) (d : Char), d.isDigit = true ∧ s = (t.push '_').push d := by
  unfold endsInUnderscoreDigit at h
  cases hrev : s.data.reverse with
  | nil => rw [hrev] at h; simp at h
  | cons d tl =>
    cases tl with
    | nil => rw [hrev] at h; simp at h
    | cons c rest =>
      rw [hrev] at h
      simp at h
      obtain ⟨hc, hd⟩ := h
      refine ⟨String.mk rest.reverse, d, hd, ?_⟩
      apply String.ext
      have hs : s.data = (d :: c :: rest).reverse := by
        rw [← hrev, List.reverse_reverse]
      rw [hs, hc]
      simp [String.push]

/-- C4: formatPanoId strips a trailing underscore-digit suffix when one
is present and leaves every other string unchanged (and a string has such
a suffix exactly when it splits as prefix, underscore, digit). -/
theorem formatPanoId_spec (s : String) :
    (∀ (t : String) (d : Char), d.isDigit = true → s = (t.push '_').push d → formatPanoId s = t)
    ∧ (endsInUnderscoreDigit s = false → formatPanoId s = s)
    ∧ (endsInUnderscoreDigit s = true →
        ∃ (t : String) (d : Char), d.isDigit = true ∧ s = (t.push '_').push d) := by
  refine ⟨?_, formatPanoId_unchanged s, endsIn_decompose s⟩
  intro t d hd he
  rw [he]
  exact formatPanoId_strips t d hd

/-- C4 witness: a suffixed id is stripped, an unsuffixed one kept. -/
theorem formatPanoId_spec_witness :
    formatPanoId "abc_1" = "abc" ∧ formatPanoId "abc" = "abc" :=
  ⟨(formatPanoId_spec "abc_1").1 "abc" '1' (by decide) (by decide),
   (formatPanoId_spec "abc").2.1 (by decide)⟩

/-- C5: the proxy's POST handler relays a non-success backend status with
an error-object body, answers 500 with an error-object body on any thrown
exception, and passes a successful backend body through unchanged with
status 200. -/
theorem POST_spec (p : Option String) (backend : String → BackendOutcome) :
    (∀ status errText, backend (forwardedTopK p) = .notOk status errText →
        (POST p backend).status = status ∧ ∃ d, (POST p backend).body = .errorObj d)
    ∧ (backend (forwardedTopK p) = .threw →
        (POST p backend).status = 500 ∧ ∃ d, (POST p backend).body = .errorObj d)
    ∧ (∀ body, backend (forwardedTopK p) = .ok body →
        POST p backend = ⟨200, .raw body⟩) := by
  refine ⟨?_, ?_, ?_⟩
  · intro status errText h
    unfold POST
    rw [h]
    exact ⟨rfl, "Target Server Error: " ++ toString status, rfl⟩
  · intro h
    unfold POST
    rw [h]
    exact ⟨rfl, "Internal Server Proxy Error", rfl⟩
  · intro body h
    unfold POST
    rw [h]
    rfl

/-- C5 witness: a backend that answers 404 is relayed as a 404 error
object. -/
theorem POST_spec_witness :
    (POST (some "10") backendErr).status = 404
    ∧ ∃ d, (POST (some "10") backendErr).body = .errorObj d :=
  (POST_spec (some "10") backendErr).1 404 "missing" rfl

/-- C7 counterexample: a supplied but empty top_k parameter is not
forwarded as given — the empty string is falsy, so the handler forwards
the default "30" instead. -/
theorem forwardedTopK_empty_param :
    forwardedTopK (some "") ≠ "" ∧ forwardedTopK (some "") = "30" := by
  refine ⟨by decide, by decide⟩

/-- C7 (amended): the backend is consulted at the request's top_k value
when a non-empty one is supplied, and at "30" when the parameter is
absent or empty. -/
theorem forwardedTopK_spec (v : String) :
    (∀ b : String → BackendOutcome, POST none b = respondWith (b "30"))
    ∧ (v.isEmpty = false → ∀ b : String → BackendOutcome, POST (some v) b = respondWith (b v))
    ∧ (∀ b : String → BackendOutcome, POST (some "") b = respondWith (b "30")) := by
  refine ⟨fun b => rfl, ?_, fun b => ?_⟩
  · intro hv b
    have hk : forwardedTopK (some v) = v := by
      simp [forwardedTopK, jsOrStr, hv]
    exact congrArg (fun k => respondWith (b k)) hk
  · have hk : forwardedTopK (some "") = "30" := by decide
    exact congrArg (fun k => respondWith (b k)) hk

/-- C7 witness: a supplied top_k of "10" reaches the backend as "10". -/
theorem forwardedTopK_spec_witness :
    POST (some "10") backendErr = respondWith (backendErr "10") :=
  (forwardedTopK_spec "10").2.1 (by decide) backendErr

/-- C8 counterexample: in map mode with the Mapbox token missing the left
pane renders the map with the absent token — no error state — refuting
the claim that a missing Mapbox token yields a visible error view. -/
theorem missing_mapbox_token_no_error :
    leftPane (some "gkey") none mapState = .mapView none [sampleResult]
    ∧ leftPane (some "gkey") none mapState ≠ .missingKeyError := by
  exact ⟨by decide, by decide⟩

/-- C8 (amended): a missing (falsy) Google Maps key renders the visible
inline error in streetview mode whenever a result is selected; a missing
Mapbox token is not surfaced — the map view renders with the absent token
and the stored markers, never an error state. -/
theorem leftPane_missing_keys (gk mb : Option String) (s : DashState) (r : GeomatchResult)
    (hv : s.viewMode = .streetview) (hr : s.selectedResult = some r)
    (hk : strFalsy gk = true) :
    leftPane gk mb s = .missingKeyError
    ∧ ∀ t : DashState, t.viewMode = .map →
        leftPane gk none t
          = .mapView none ((Option.map GeomatchResponse.results t.apiResponse).getD []) := by
  constructor
  · simp [leftPane, hv, hr, hk]
  · intro t ht
    simp [leftPane, ht]

/-- C8 witness: with no Google key, the ready state's streetview shows
the missing-key error. -/
theorem leftPane_missing_keys_witness :
    leftPane none none readyState = .missingKeyError :=
  (leftPane_missing_keys none none readyState sampleResult rfl rfl rfl).1
